import Mathlib

/-!
Verification development for the go-cqrs mediator library (package `gocqrs`).

The repository bundles several historical snapshots of the same library.
The embedding below models, faithfully to the Go source:

* the current snapshot: `addRequest` / `send` (mediator.go, the variant built
  on `handlers map[string]any`, `getMapValue` / `storeMapValue` from utils.go),
  `AddEventHandlers` / `PublishEvent` over `map[string][]eventHandlersType`,
  the middleware builder (middleware.go, the variant whose
  `executePreMiddlewares` returns the chained request), and
  `reflectiveHandler.Handle` (reflective.handler.go);
* the legacy snapshot kept in the same files: the `sync.Map`-based
  `SendCommand` and `PublishEvent` (the first variant in mediator.go), and the
  older `PostMiddleware` (the last variant in middleware.go) whose existence
  check reads the pre-middleware map.

Go runtime types are modelled as a base name plus a pointer flag; `any`
values carry their dynamic type.  String-keyed Go maps are association
lists.  The names derived by reflection (`reflect.TypeOf(x).String()`,
`runtime.FuncForPC(...).Name()`) are supplied as explicit string arguments,
which is exactly the data the Go code extracts.  Handlers and middleware are
pure functions; `context.Context` is an opaque value threaded unchanged.
Dispatch functions additionally record an execution trace (which middlewares
ran, which handler ran and with which request) so that invocation claims are
observable; the returned response/error components are exactly those of the
source.
-/

namespace GoCqrs

/-- An opaque stand-in for Go's `context.Context` values. -/
abbrev Ctx := Nat

/-- Go error values are modelled by their message. -/
abbrev Err := String

/-- A Go runtime type: a base type name (e.g. `gocqrs.CreateUser`) plus
whether the value is a pointer to that base type.  `reflect.TypeOf` on a
pointer renders as `*` followed by the base name. -/
structure GoType where
  base : String
  ptr : Bool
  deriving DecidableEq, Repr

/-- `reflect.TypeOf(v).String()`: the rendered type name, with a leading
`*` for pointer values. -/
def GoType.string (t : GoType) : String :=
  if t.ptr then "*" ++ t.base else t.base

/-- A Go `any` value: its dynamic type plus an abstract payload. -/
structure GoVal where
  type : GoType
  payload : Nat
  deriving DecidableEq, Repr

/-- The zero value of a Go type (`*new(T)` / `reflect.Zero`). -/
def zeroOf (t : GoType) : GoVal :=
  ⟨t, 0⟩

/-- `strings.TrimPrefix(s, "*")`: drops one leading `*` when present. -/
def trimStar (s : String) : String :=
  match s.data with
  | '*' :: rest => String.mk rest
  | _ => s

/-- `getMapValue` (utils.go): lookup in a string-keyed Go map, modelled on an
association list.  The mutex argument of the source is dropped: the model is
sequential. -/
def getMapValue {α : Type} (m : List (String × α)) (key : String) : Option α :=
  match m with
  | [] => none
  | (k, v) :: rest => if k = key then some v else getMapValue rest key

/-- `storeMapValue` (utils.go): `m[key] = value` on the association-list
model of a Go map. -/
def storeMapValue {α : Type} (m : List (String × α)) (key : String) (value : α) :
    List (String × α) :=
  match m with
  | [] => [(key, value)]
  | (k, v) :: rest =>
    if k = key then (key, value) :: rest else (k, v) :: storeMapValue rest key value

/-- A middleware function (middleware.go, current variant):
`func(ctx context.Context, request any) (context.Context, any, bool)`. -/
abbrev MiddlewareFunc := Ctx → GoVal → Ctx × GoVal × Bool

/-- `middlewareStruct` (middleware.go): a middleware with the name derived
for it at registration time. -/
structure middlewareStruct where
  middlewareName : String
  middlewareFunc : MiddlewareFunc

/-- `AddMiddlewareBuilder` (middleware.go, current variant): the per-handler
pre- and post-middleware lists, keyed by handler name. -/
structure AddMiddlewareBuilder where
  currentHandlerName : String
  preMiddlewares : List (String × List middlewareStruct)
  postMiddlewares : List (String × List middlewareStruct)

/-- `isMiddlewareRegisteredForHandler` (middleware.go): linear scan of a
middleware list for a name. -/
def isMiddlewareRegisteredForHandler :
    List middlewareStruct → String → Bool
  | [], _ => false
  | m :: rest, middlewareName =>
    if m.middlewareName = middlewareName then true
    else isMiddlewareRegisteredForHandler rest middlewareName

/-- `AddMiddlewareBuilder.PreMiddleware` (middleware.go, current variant,
lines 191-222).  `typedMiddlewareName` stands for the name the source derives
via `runtime.FuncForPC(reflect.ValueOf(middlewareFunc).Pointer()).Name()`. -/
def AddMiddlewareBuilder.PreMiddleware (b : AddMiddlewareBuilder)
    (typedMiddlewareName : String) (middlewareFunc : MiddlewareFunc) :
    AddMiddlewareBuilder :=
  let middleware : middlewareStruct := ⟨typedMiddlewareName, middlewareFunc⟩
  match getMapValue b.preMiddlewares b.currentHandlerName with
  | none =>
    { b with preMiddlewares :=
        storeMapValue b.preMiddlewares b.currentHandlerName [middleware] }
  | some middlewares =>
    if ¬ isMiddlewareRegisteredForHandler middlewares typedMiddlewareName then
      let updated := middlewares ++ [middleware]
      { b with preMiddlewares :=
          storeMapValue b.preMiddlewares b.currentHandlerName updated }
    else b

/-- `AddMiddlewareBuilder.PostMiddleware` (middleware.go, current variant,
lines 256-287): same shape as `PreMiddleware`, over the post-middleware
map. -/
def AddMiddlewareBuilder.PostMiddleware (b : AddMiddlewareBuilder)
    (typedMiddlewareName : String) (middlewareFunc : MiddlewareFunc) :
    AddMiddlewareBuilder :=
  let middleware : middlewareStruct := ⟨typedMiddlewareName, middlewareFunc⟩
  match getMapValue b.postMiddlewares b.currentHandlerName with
  | none =>
    { b with postMiddlewares :=
        storeMapValue b.postMiddlewares b.currentHandlerName [middleware] }
  | some middlewares =>
    if ¬ isMiddlewareRegisteredForHandler middlewares typedMiddlewareName then
      let updated := middlewares ++ [middleware]
      { b with postMiddlewares :=
          storeMapValue b.postMiddlewares b.currentHandlerName updated }
    else b

/-- `PostMiddleware` of the older snapshot (middleware.go, last variant,
lines 382-403).  Note the source's existence lookup reads
`middlewareBuilder.preMiddlewares` (not the post map); the append branch
appends to the post list (`append` on a possibly-nil Go slice). -/
def PostMiddlewareOld (b : AddMiddlewareBuilder)
    (typedMiddlewareName : String) (middlewareFunc : MiddlewareFunc) :
    AddMiddlewareBuilder :=
  let middleware : middlewareStruct := ⟨typedMiddlewareName, middlewareFunc⟩
  match getMapValue b.preMiddlewares b.currentHandlerName with
  | none =>
    { b with postMiddlewares :=
        storeMapValue b.postMiddlewares b.currentHandlerName [middleware] }
  | some middlewares =>
    if ¬ isMiddlewareRegisteredForHandler middlewares typedMiddlewareName then
      let updated := (getMapValue b.postMiddlewares b.currentHandlerName).getD [] ++ [middleware]
      { b with postMiddlewares :=
          storeMapValue b.postMiddlewares b.currentHandlerName updated }
    else b

/-- The loop of `executePreMiddlewares` (middleware.go, current variant,
lines 156-168), instrumented with the list of middleware names that actually
ran, in order.  Each middleware receives the current context and request; a
`false` continue flag stops the iteration and the request produced by that
middleware is the chain output. -/
def runPreLoop : List middlewareStruct → Ctx → GoVal → GoVal × List String
  | [], _, request => (request, [])
  | m :: rest, ctx, request =>
    let step := m.middlewareFunc ctx request
    if step.2.2 then
      let tail := runPreLoop rest step.1 step.2.1
      (tail.1, m.middlewareName :: tail.2)
    else (step.2.1, [m.middlewareName])

/-- `executePreMiddlewares` (middleware.go, current variant) with its
execution trace: looks up the pre list for the handler and runs the loop;
a missing entry leaves the request unchanged. -/
def executePreMiddlewaresTr (b : AddMiddlewareBuilder) (ctx : Ctx)
    (request : GoVal) (handlerName : String) : GoVal × List String :=
  match getMapValue b.preMiddlewares handlerName with
  | some middlewares => runPreLoop middlewares ctx request
  | none => (request, [])

/-- `executePreMiddlewares` exactly as in the source: the chained request. -/
def executePreMiddlewares (b : AddMiddlewareBuilder) (ctx : Ctx)
    (request : GoVal) (handlerName : String) : GoVal :=
  (executePreMiddlewaresTr b ctx request handlerName).1

/-- `executePostMiddlewares` (middleware.go, current variant, lines
172-183) returns nothing in the source; the model returns its execution
trace, the only observable effect. -/
def executePostMiddlewaresTr (b : AddMiddlewareBuilder) (ctx : Ctx)
    (request : GoVal) (handlerName : String) : List String :=
  match getMapValue b.postMiddlewares handlerName with
  | some middlewares => (runPreLoop middlewares ctx request).2
  | none => []

/-- A registered handler's `Handle` method: `(ctx, in) -> (out, err)`.  The
output value carries its dynamic Go type. -/
abbrev HandlerFn := Ctx → GoVal → GoVal × Option Err

/-- `handlerWrapper` (wrappers.go): the registry entry holding the user's
handler and the handler name derived at registration.  `send` reads both
fields by reflection (`getField value "Handler"` / `getField value "Name"`)
and calls the handler's `Handle` method. -/
structure handlerWrapper where
  Handler : HandlerFn
  Name : String

/-- `addRequest` (mediator.go, current variant, lines 255-267): stores the
wrapped handler under the key `reflect.TypeOf(new(T1)).Elem().String()`,
i.e. the rendered name of the request type parameter, and points the shared
middleware builder at this handler's name. -/
def addRequest (handlers : List (String × handlerWrapper))
    (b : AddMiddlewareBuilder) (t1 : GoType) (handler : HandlerFn)
    (typedHandlerName : String) :
    List (String × handlerWrapper) × AddMiddlewareBuilder :=
  let typed := t1.string
  (storeMapValue handlers typed ⟨handler, typedHandlerName⟩,
    { b with currentHandlerName := typedHandlerName })

/-- `reflectiveHandler` (reflective.handler.go): a method value plus the
expected response type `T2` it narrows to. -/
structure reflectiveHandler where
  expected : GoType
  method : HandlerFn

/-- `reflectiveHandler.Handle` (reflective.handler.go, lines 21-66): calls
the method, narrows the first result to the expected response type (a failed
conversion returns the zero response and a conversion error, dropping the
handler's own error), then surfaces the handler's error.  The
method-validity and nil-argument guards of the source cannot fire in this
model: methods are total functions and the context and request are always
present. -/
def reflectiveHandler.Handle (r : reflectiveHandler) (ctx : Ctx)
    (inv : GoVal) : GoVal × Option Err :=
  let reflectResults := r.method ctx inv
  if reflectResults.1.type = r.expected then
    (reflectResults.1, reflectResults.2)
  else
    (zeroOf r.expected, some "reflectiveHandler: error in result conversion")

/-- `createReflectiveHandler` (reflective.handler.go, lines 69-71). -/
def createReflectiveHandler (expected : GoType) (method : HandlerFn) :
    reflectiveHandler :=
  ⟨expected, method⟩

/-- What a call to `send` did: either it returned a `(response, err)` pair
or it panicked with a message. -/
inductive SendOutcome where
  | returned (response : GoVal) (err : Option Err)
  | panicked (msg : String)
  deriving DecidableEq, Repr

/-- The observable behaviour of one `send` call: its outcome, the names of
the pre- and post-middlewares that ran, and the request value the handler
was invoked with (`none` when no handler ran). -/
structure SendLog where
  outcome : SendOutcome
  preRun : List String
  handlerInput : Option GoVal
  postRun : List String
  deriving DecidableEq, Repr

/-- `send` (mediator.go, current variant, lines 309-353): resolves the key
`reflect.TypeOf(in).String()` (note: no `*` stripping in this variant),
panics when no handler is registered, otherwise runs the pre-middleware
chain, invokes the handler through a `reflectiveHandler` narrowing to the
expected response type, runs the post-middleware chain (its output is
discarded), and returns the handler's `(response, err)` pair.  The
field/method reflection lookups (`Handler`, `Handle`, `Name`) always
succeed on entries built by `addRequest`, as they do in the source. -/
def send (handlers : List (String × handlerWrapper)) (b : AddMiddlewareBuilder)
    (expected : GoType) (ctx : Ctx) (inv : GoVal) : SendLog :=
  let typedIn := inv.type.string
  match getMapValue handlers typedIn with
  | none => ⟨.panicked ("no handler found for: " ++ typedIn), [], none, []⟩
  | some value =>
    let handlerName := value.Name
    let pre := executePreMiddlewaresTr b ctx inv handlerName
    let res := (createReflectiveHandler expected value.Handler).Handle ctx pre.1
    let post := executePostMiddlewaresTr b ctx pre.1 handlerName
    ⟨.returned res.1 res.2, pre.2, some pre.1, post⟩

/-- `SendCommand` of the legacy `sync.Map` snapshot (mediator.go, first
variant, lines 79-110): resolves the key with the `*` prefix stripped,
returns the zero response and an error when no handler is found, otherwise
invokes the handler and narrows its response by a type assertion — on a
failed assertion it returns the zero response **and a nil error** (line
109).  The boolean records whether a handler was invoked. -/
def SendCommandLegacy (commandHandlers : List (String × HandlerFn))
    (expected : GoType) (ctx : Ctx) (command : GoVal) :
    (GoVal × Option Err) × Bool :=
  let typedCommand := trimStar command.type.string
  let zeroValue := zeroOf expected
  match getMapValue commandHandlers typedCommand with
  | none =>
    ((zeroValue, some ("no handler found for this command: " ++ typedCommand)),
      false)
  | some cmdHandler =>
    let commandResponse := cmdHandler ctx command
    if commandResponse.1.type = expected then (commandResponse, true)
    else ((zeroValue, none), true)

/-- `eventHandlersType` (types.go): an event handler entry, keyed by the
rendered type name of the handler value. -/
structure eventHandlersType where
  typeName : String
  eventHandler : HandlerFn

/-- `checkTypeNameInEventHandlers` (utils.go / mediator.go): linear scan of
the registered event handler entries for a handler type name. -/
def checkTypeNameInEventHandlers (typeName : String) :
    List eventHandlersType → Bool
  | [] => false
  | v :: rest =>
    if v.typeName = typeName then true
    else checkTypeNameInEventHandlers typeName rest

/-- `loadOrStoreEventHandlers` (utils.go, lines 66-76): returns the list
registered for the event type, storing and returning an empty list when the
key is absent.  The Go function mutates the map; the model also returns the
updated map. -/
def loadOrStoreEventHandlers (m : List (String × List eventHandlersType))
    (typedEvent : String) :
    List eventHandlersType × List (String × List eventHandlersType) :=
  match getMapValue m typedEvent with
  | some handlers => (handlers, m)
  | none => ([], storeMapValue m typedEvent [])

/-- The registration loop of `AddEventHandlers` (mediator.go, current
variant, lines 279-290): appends each provided handler whose derived type
name is not yet present. -/
def addEventHandlersLoop (registered : List eventHandlersType) :
    List (String × HandlerFn) → List eventHandlersType
  | [] => registered
  | (typedHandlerName, handler) :: rest =>
    if ¬ checkTypeNameInEventHandlers typedHandlerName registered then
      addEventHandlersLoop (registered ++ [⟨typedHandlerName, handler⟩]) rest
    else addEventHandlersLoop registered rest

/-- `AddEventHandlers` (mediator.go, current variant, lines 271-295): keys
the event registry by `reflect.TypeOf(new(TEvent)).Elem().String()`,
load-or-stores the existing entry list, merges the provided handlers
(each given with its derived type name) skipping duplicates by name, and
stores the result. -/
def AddEventHandlers (m : List (String × List eventHandlersType))
    (tEvent : GoType) (handlers : List (String × HandlerFn)) :
    List (String × List eventHandlersType) :=
  let typedEvent := tEvent.string
  let loaded := loadOrStoreEventHandlers m typedEvent
  let registeredHandlers := addEventHandlersLoop loaded.1 handlers
  storeMapValue loaded.2 typedEvent registeredHandlers

/-- What a `PublishEvent` call did: success, the single lookup-failure error
of the legacy variant, the `errors.Join` of the handler errors, or a panic
(current variant's lookup failure). -/
inductive PublishOutcome where
  | ok
  | notFound (msg : String)
  | joined (errs : List Err)
  | panicked (msg : String)
  deriving DecidableEq, Repr

/-- The fan-out loop of `PublishEvent` (both variants): invokes every
handler in order, collecting the non-nil errors in encounter order, and
records the type names of all invoked handlers. -/
def publishLoop (ctx : Ctx) (event : GoVal) :
    List eventHandlersType → List Err × List String
  | [] => ([], [])
  | eh :: rest =>
    let res := eh.eventHandler ctx event
    let tail := publishLoop ctx event rest
    match res.2 with
    | some e => (e :: tail.1, eh.typeName :: tail.2)
    | none => (tail.1, eh.typeName :: tail.2)

/-- `PublishEvent` (mediator.go, current variant, lines 362-396): resolves
the key with the `*` prefix stripped, **panics** when the event type has no
entry in the registry, otherwise invokes every registered handler and
returns the joined handler errors, or success when none failed.  Also
returns the invocation trace. -/
def PublishEvent (eventHandlers : List (String × List eventHandlersType))
    (ctx : Ctx) (event : GoVal) : PublishOutcome × List String :=
  let typedEvent := trimStar event.type.string
  match getMapValue eventHandlers typedEvent with
  | none => (.panicked ("no handler found for: " ++ typedEvent), [])
  | some registeredEventHandlers =>
    let res := publishLoop ctx event registeredEventHandlers
    (if res.1.length > 0 then .joined res.1 else .ok, res.2)

/-- `PublishEvent` of the legacy snapshot (mediator.go, first variant,
lines 164-199): identical fan-out, but a missing registry entry is returned
as an error value, not a panic. -/
def PublishEventLegacy (eventHandlers : List (String × List eventHandlersType))
    (ctx : Ctx) (event : GoVal) : PublishOutcome × List String :=
  let typedEvent := trimStar event.type.string
  match getMapValue eventHandlers typedEvent with
  | none => (.notFound ("no handlers found for this event: " ++ typedEvent), [])
  | some registeredEventHandlers =>
    let res := publishLoop ctx event registeredEventHandlers
    (if res.1.length > 0 then .joined res.1 else .ok, res.2)

/-! ## General lemmas about the map model and the fan-out loop -/

theorem getMapValue_store_self {α : Type} (m : List (String × α)) (key : String)
    (value : α) : getMapValue (storeMapValue m key value) key = some value := by
  induction m with
  | nil => simp [storeMapValue, getMapValue]
  | cons p rest ih =>
    obtain ⟨k, v⟩ := p
    by_cases hk : k = key
    · simp [storeMapValue, getMapValue, hk]
    · simp [storeMapValue, getMapValue, hk, ih]

theorem publishLoop_trace (ctx : Ctx) (event : GoVal)
    (hs : List eventHandlersType) :
    (publishLoop ctx event hs).2 = hs.map (fun eh => eh.typeName) := by
  induction hs with
  | nil => simp [publishLoop]
  | cons eh rest ih =>
    cases hres : (eh.eventHandler ctx event).2 <;>
      simp [publishLoop, hres, ih]

theorem publishLoop_errors (ctx : Ctx) (event : GoVal)
    (hs : List eventHandlersType) :
    (publishLoop ctx event hs).1 =
      hs.filterMap (fun eh => (eh.eventHandler ctx event).2) := by
  induction hs with
  | nil => simp [publishLoop]
  | cons eh rest ih =>
    cases hres : (eh.eventHandler ctx event).2 <;>
      simp [publishLoop, hres, ih, List.filterMap_cons]

/-! ## Claim theorems -/

/-- C5: for an event type whose registry entry holds `N` handlers, `publish`
invokes all `N` handlers in registration order (a failing handler never
prevents the remaining handlers from running) and returns the aggregated
error wrapping exactly the non-nil handler errors in encounter order, or
success when no handler failed. -/
theorem publishEvent_failOpen_fanout
    (m : List (String × List eventHandlersType)) (ctx : Ctx) (event : GoVal)
    (hs : List eventHandlersType)
    (hfound : getMapValue m (trimStar event.type.string) = some hs) :
    (PublishEvent m ctx event).2 = hs.map (fun eh => eh.typeName) ∧
    (PublishEvent m ctx event).1 =
      (if hs.filterMap (fun eh => (eh.eventHandler ctx event).2) = []
        then PublishOutcome.ok
        else PublishOutcome.joined
          (hs.filterMap (fun eh => (eh.eventHandler ctx event).2))) := by
  have htr := publishLoop_trace ctx event hs
  have herr := publishLoop_errors ctx event hs
  constructor
  · simp [PublishEvent, hfound, htr]
  · rcases hcase : hs.filterMap (fun eh => (eh.eventHandler ctx event).2) with
      _ | ⟨e, es⟩
    · simp [PublishEvent, hfound, herr, hcase]
    · simp [PublishEvent, hfound, herr, hcase]

/-- The `gocqrs.Ping` event value used by concrete scenarios. -/
def pingEvent : GoVal :=
  ⟨⟨"gocqrs.Ping", false⟩, 0⟩

/-- A succeeding event handler entry for the `gocqrs.Ping` scenarios. -/
def pingH1 : eventHandlersType :=
  ⟨"gocqrs.H1", fun _ e => (e, none)⟩

/-- A failing event handler entry (error `boom`) for the `gocqrs.Ping`
scenarios. -/
def pingH2 : eventHandlersType :=
  ⟨"gocqrs.H2", fun _ _ => (zeroOf ⟨"gocqrs.Ping", false⟩, some "boom")⟩

/-- An event registry holding the two `gocqrs.Ping` handlers. -/
def pingReg : List (String × List eventHandlersType) :=
  [("gocqrs.Ping", [pingH1, pingH2])]

/-- Witness for C5: two handlers registered for `gocqrs.Ping`; the first
succeeds, the second fails with `boom`; publishing invokes both and returns
the aggregation of exactly the one error. -/
theorem publishEvent_failOpen_fanout_witness :
    getMapValue pingReg (trimStar pingEvent.type.string) =
      some [pingH1, pingH2] ∧
    (PublishEvent pingReg 0 pingEvent).2 = ["gocqrs.H1", "gocqrs.H2"] ∧
    (PublishEvent pingReg 0 pingEvent).1 = PublishOutcome.joined ["boom"] := by
  have h := publishEvent_failOpen_fanout pingReg 0 pingEvent [pingH1, pingH2] rfl
  exact ⟨rfl, h.1, h.2⟩

/-- Counterexample for C6: with an empty event registry, publishing a
`gocqrs.Ping` event makes the current `PublishEvent` panic — the call does
not return a `NoHandlersRegistered` error value. -/
theorem publishEvent_missing_panics_cex :
    (PublishEvent [] 0 pingEvent).1 =
      PublishOutcome.panicked "no handler found for: gocqrs.Ping" ∧
    ∀ msg : String, (PublishEvent [] 0 pingEvent).1 ≠ PublishOutcome.notFound msg := by
  constructor
  · rfl
  · intro msg h
    exact PublishOutcome.noConfusion (h.symm.trans rfl)

/-- C6 (amended): when the event type has no entry in the registry, no
handler is invoked; the legacy `PublishEvent` returns a
no-handlers-found error value, while the current `PublishEvent` panics with
a `no handler found` message instead of returning an error. -/
theorem publishEvent_missing_behavior
    (m : List (String × List eventHandlersType)) (ctx : Ctx) (event : GoVal)
    (hmissing : getMapValue m (trimStar event.type.string) = none) :
    PublishEvent m ctx event =
      (PublishOutcome.panicked
        ("no handler found for: " ++ trimStar event.type.string), []) ∧
    PublishEventLegacy m ctx event =
      (PublishOutcome.notFound
        ("no handlers found for this event: " ++ trimStar event.type.string), []) := by
  constructor
  · simp [PublishEvent, hmissing]
  · simp [PublishEventLegacy, hmissing]

/-- Witness for C6: the empty registry at the concrete `gocqrs.Ping`
event. -/
theorem publishEvent_missing_behavior_witness :
    PublishEvent [] 0 pingEvent =
      (PublishOutcome.panicked "no handler found for: gocqrs.Ping", []) ∧
    PublishEventLegacy [] 0 pingEvent =
      (PublishOutcome.notFound "no handlers found for this event: gocqrs.Ping", []) :=
  publishEvent_missing_behavior [] 0 pingEvent rfl

/-- C10: after `AddEventHandlers` is called with zero handler arguments for
an event type not yet in the registry, the registry holds an empty handler
list under that type's key, and a subsequent publish of that event type
succeeds (returns nil), invoking no handlers.  The hypotheses fix the
dispatched value to be of the registered non-pointer shape, whose base name
carries no `*` marker. -/
theorem addEventHandlers_zero_publish_ok
    (m : List (String × List eventHandlersType)) (t : GoType) (ctx : Ctx)
    (event : GoVal)
    (habsent : getMapValue m t.string = none)
    (hptr : t.ptr = false)
    (hbase : trimStar t.base = t.base)
    (hev : event.type = t) :
    getMapValue (AddEventHandlers m t []) t.string = some [] ∧
    PublishEvent (AddEventHandlers m t []) ctx event = (PublishOutcome.ok, []) := by
  have hreg : AddEventHandlers m t [] =
      storeMapValue (storeMapValue m t.string []) t.string [] := by
    simp [AddEventHandlers, loadOrStoreEventHandlers, habsent, addEventHandlersLoop]
  have hkey : trimStar event.type.string = t.string := by
    rw [hev]
    simp [GoType.string, hptr, hbase]
  have hfound : getMapValue (AddEventHandlers m t []) t.string = some [] := by
    rw [hreg]
    exact getMapValue_store_self _ _ _
  refine ⟨hfound, ?_⟩
  simp [PublishEvent, hkey, hfound, publishLoop]

/-- Witness for C10 at the concrete shape `gocqrs.UserCreated` and the empty
registry. -/
theorem addEventHandlers_zero_publish_ok_witness :
    getMapValue
        (AddEventHandlers [] ⟨"gocqrs.UserCreated", false⟩ [])
        (GoType.string ⟨"gocqrs.UserCreated", false⟩) = some [] ∧
    PublishEvent (AddEventHandlers [] ⟨"gocqrs.UserCreated", false⟩ []) 0
        ⟨⟨"gocqrs.UserCreated", false⟩, 3⟩ = (PublishOutcome.ok, []) :=
  addEventHandlers_zero_publish_ok [] ⟨"gocqrs.UserCreated", false⟩ 0
    ⟨⟨"gocqrs.UserCreated", false⟩, 3⟩ rfl rfl rfl rfl

/-- A builder with no registered middlewares, as after `init`. -/
def emptyBuilder : AddMiddlewareBuilder :=
  ⟨"", [], []⟩

/-- Counterexample for C2: with an empty handler registry, the current
`send` panics on a `gocqrs.Nope` request — the dispatch does not return a
`HandlerNotFound` error value. -/
theorem send_missing_panics_cex :
    (send [] emptyBuilder ⟨"int", false⟩ 0 ⟨⟨"gocqrs.Nope", false⟩, 0⟩).outcome =
      SendOutcome.panicked "no handler found for: gocqrs.Nope" ∧
    ∀ (response : GoVal) (err : Option Err),
      (send [] emptyBuilder ⟨"int", false⟩ 0 ⟨⟨"gocqrs.Nope", false⟩, 0⟩).outcome ≠
        SendOutcome.returned response err := by
  constructor
  · rfl
  · intro response err h
    exact SendOutcome.noConfusion (h.symm.trans rfl)

/-- C2 (amended): dispatching a request whose resolved key has no registered
handler invokes no handler and runs no middleware; the legacy `SendCommand`
returns the zero value of the expected response type together with a
handler-not-found error value, while the current `send` panics with a
`no handler found` message instead of returning an error. -/
theorem dispatch_missing_behavior
    (handlers : List (String × handlerWrapper)) (b : AddMiddlewareBuilder)
    (expected : GoType) (ctx : Ctx) (inv : GoVal)
    (legacy : List (String × HandlerFn)) (expectedL : GoType) (ctxL : Ctx)
    (command : GoVal)
    (hmiss : getMapValue handlers inv.type.string = none)
    (hmissL : getMapValue legacy (trimStar command.type.string) = none) :
    send handlers b expected ctx inv =
      ⟨SendOutcome.panicked ("no handler found for: " ++ inv.type.string),
        [], none, []⟩ ∧
    SendCommandLegacy legacy expectedL ctxL command =
      ((zeroOf expectedL,
        some ("no handler found for this command: " ++ trimStar command.type.string)),
        false) := by
  constructor
  · simp [send, hmiss]
  · simp [SendCommandLegacy, hmissL]

/-- Witness for C2 at concrete empty registries and a `gocqrs.Nope`
request. -/
theorem dispatch_missing_behavior_witness :
    send [] emptyBuilder ⟨"int", false⟩ 0 ⟨⟨"gocqrs.Nope", false⟩, 0⟩ =
      ⟨SendOutcome.panicked "no handler found for: gocqrs.Nope", [], none, []⟩ ∧
    SendCommandLegacy [] ⟨"int", false⟩ 0 ⟨⟨"gocqrs.Nope", false⟩, 0⟩ =
      ((zeroOf ⟨"int", false⟩,
        some "no handler found for this command: gocqrs.Nope"), false) :=
  dispatch_missing_behavior [] emptyBuilder ⟨"int", false⟩ 0
    ⟨⟨"gocqrs.Nope", false⟩, 0⟩ [] ⟨"int", false⟩ 0
    ⟨⟨"gocqrs.Nope", false⟩, 0⟩ rfl rfl

/-- A handler whose response is a `string` value, used to exercise a
response-type mismatch against an expected `gocqrs.UserDto`. -/
def mismatchHandler : HandlerFn :=
  fun _ _ => (⟨⟨"string", false⟩, 7⟩, none)

/-- Counterexample for C1: in the legacy `SendCommand`, a handler registered
for `gocqrs.CreateUser` returns a `string` response while the call site
expects `gocqrs.UserDto`; the dispatch invokes the handler and returns the
zero value of the expected type together with a nil error. -/
theorem sendCommand_mismatch_zero_nil_cex :
    SendCommandLegacy [("gocqrs.CreateUser", mismatchHandler)]
        ⟨"gocqrs.UserDto", false⟩ 0 ⟨⟨"gocqrs.CreateUser", false⟩, 1⟩ =
      ((zeroOf ⟨"gocqrs.UserDto", false⟩, none), true) := by
  rfl

/-- C1 (amended): in the current reflective dispatch path, a handler
response that does not narrow to the caller's statically expected type
yields the zero response together with a **non-nil** conversion error; the
legacy `SendCommand` variant instead returns the zero value of the expected
type with a nil error on mismatch. -/
theorem response_mismatch_behavior
    (handlers : List (String × handlerWrapper)) (b : AddMiddlewareBuilder)
    (expected : GoType) (ctx : Ctx) (inv : GoVal) (value : handlerWrapper)
    (legacy : List (String × HandlerFn)) (expectedL : GoType) (ctxL : Ctx)
    (command : GoVal) (cmdHandler : HandlerFn)
    (hfound : getMapValue handlers inv.type.string = some value)
    (hconv :
      (value.Handler ctx (executePreMiddlewaresTr b ctx inv value.Name).1).1.type ≠
        expected)
    (hfoundL : getMapValue legacy (trimStar command.type.string) = some cmdHandler)
    (hmisL : (cmdHandler ctxL command).1.type ≠ expectedL) :
    (send handlers b expected ctx inv).outcome =
      SendOutcome.returned (zeroOf expected)
        (some "reflectiveHandler: error in result conversion") ∧
    SendCommandLegacy legacy expectedL ctxL command =
      ((zeroOf expectedL, none), true) := by
  constructor
  · simp [send, hfound, createReflectiveHandler, reflectiveHandler.Handle, hconv]
  · simp [SendCommandLegacy, hfoundL, hmisL]

/-- Witness for C1: the mismatching handler registered for
`gocqrs.CreateUser` under both the current and the legacy path, with the
caller expecting `gocqrs.UserDto`. -/
theorem response_mismatch_behavior_witness :
    (send [("gocqrs.CreateUser", ⟨mismatchHandler, "gocqrs.H"⟩)] emptyBuilder
        ⟨"gocqrs.UserDto", false⟩ 0 ⟨⟨"gocqrs.CreateUser", false⟩, 1⟩).outcome =
      SendOutcome.returned (zeroOf ⟨"gocqrs.UserDto", false⟩)
        (some "reflectiveHandler: error in result conversion") ∧
    SendCommandLegacy [("gocqrs.CreateUser", mismatchHandler)]
        ⟨"gocqrs.UserDto", false⟩ 0 ⟨⟨"gocqrs.CreateUser", false⟩, 1⟩ =
      ((zeroOf ⟨"gocqrs.UserDto", false⟩, none), true) :=
  response_mismatch_behavior
    [("gocqrs.CreateUser", ⟨mismatchHandler, "gocqrs.H"⟩)] emptyBuilder
    ⟨"gocqrs.UserDto", false⟩ 0 ⟨⟨"gocqrs.CreateUser", false⟩, 1⟩
    ⟨mismatchHandler, "gocqrs.H"⟩
    [("gocqrs.CreateUser", mismatchHandler)] ⟨"gocqrs.UserDto", false⟩ 0
    ⟨⟨"gocqrs.CreateUser", false⟩, 1⟩ mismatchHandler
    rfl (by decide) rfl (by decide)

/-- A handler for the `gocqrs.CreateUser` shape returning a
`gocqrs.UserDto`. -/
def createUserHandler : HandlerFn :=
  fun _ _ => (⟨⟨"gocqrs.UserDto", false⟩, 0⟩, none)

/-- The registry and builder obtained by registering `createUserHandler`
for the value shape `gocqrs.CreateUser` through `addRequest`. -/
def createUserRegistration :
    List (String × handlerWrapper) × AddMiddlewareBuilder :=
  addRequest [] emptyBuilder ⟨"gocqrs.CreateUser", false⟩ createUserHandler
    "gocqrs.createUserHandler"

/-- C3: evaluation of the current `send` at the failing input.  After
registering a handler for the `gocqrs.CreateUser` shape, the value variant
and the pointer variant of the shape resolve to different keys
(`gocqrs.CreateUser` vs `*gocqrs.CreateUser`, since this `send` does not
strip the `*` prefix): the value dispatch locates the handler and invokes
it, while the pointer dispatch finds no handler and panics. -/
theorem send_pointer_key_mismatch :
    GoType.string ⟨"gocqrs.CreateUser", true⟩ ≠
      GoType.string ⟨"gocqrs.CreateUser", false⟩ ∧
    (send createUserRegistration.1 createUserRegistration.2
        ⟨"gocqrs.UserDto", false⟩ 0 ⟨⟨"gocqrs.CreateUser", false⟩, 5⟩).handlerInput =
      some ⟨⟨"gocqrs.CreateUser", false⟩, 5⟩ ∧
    send createUserRegistration.1 createUserRegistration.2
        ⟨"gocqrs.UserDto", false⟩ 0 ⟨⟨"gocqrs.CreateUser", true⟩, 5⟩ =
      ⟨SendOutcome.panicked "no handler found for: *gocqrs.CreateUser",
        [], none, []⟩ := by
  refine ⟨by decide, rfl, rfl⟩

/-- C4: with pre-middlewares `[A, B, C]` registered for the dispatched
handler, where `A` continues the chain and `B` stops it on the values this
dispatch produces, `send` runs `A` then `B`, never runs `C`, and still
invokes the handler with the request value produced by `B`. -/
theorem send_chain_short_circuit
    (hName nA nB nC : String) (fA fB fC : MiddlewareFunc)
    (post : List (String × List middlewareStruct))
    (hf : HandlerFn) (expected : GoType) (ctx : Ctx) (inv : GoVal)
    (hA : (fA ctx inv).2.2 = true)
    (hB : (fB (fA ctx inv).1 (fA ctx inv).2.1).2.2 = false)
    (hCA : nC ≠ nA) (hCB : nC ≠ nB) :
    (send [(inv.type.string, ⟨hf, hName⟩)]
        ⟨hName, [(hName, [⟨nA, fA⟩, ⟨nB, fB⟩, ⟨nC, fC⟩])], post⟩
        expected ctx inv).preRun = [nA, nB] ∧
    nC ∉ (send [(inv.type.string, ⟨hf, hName⟩)]
        ⟨hName, [(hName, [⟨nA, fA⟩, ⟨nB, fB⟩, ⟨nC, fC⟩])], post⟩
        expected ctx inv).preRun ∧
    (send [(inv.type.string, ⟨hf, hName⟩)]
        ⟨hName, [(hName, [⟨nA, fA⟩, ⟨nB, fB⟩, ⟨nC, fC⟩])], post⟩
        expected ctx inv).handlerInput =
      some (fB (fA ctx inv).1 (fA ctx inv).2.1).2.1 := by
  have hpre :
      (send [(inv.type.string, ⟨hf, hName⟩)]
          ⟨hName, [(hName, [⟨nA, fA⟩, ⟨nB, fB⟩, ⟨nC, fC⟩])], post⟩
          expected ctx inv).preRun = [nA, nB] := by
    simp [send, getMapValue, executePreMiddlewaresTr, runPreLoop, hA, hB]
  refine ⟨hpre, ?_, ?_⟩
  · rw [hpre]
    simp [hCA, hCB]
  · simp [send, getMapValue, executePreMiddlewaresTr, runPreLoop, hA, hB]

/-- The `A` middleware of the concrete C4 scenario: continues unchanged. -/
def mwContinue : MiddlewareFunc :=
  fun ctx request => (ctx, request, true)

/-- The `B` middleware of the concrete C4 scenario: rewrites the request to
a `gocqrs.Rewritten` value and stops the chain. -/
def mwStop : MiddlewareFunc :=
  fun ctx _ => (ctx, ⟨⟨"gocqrs.Rewritten", false⟩, 9⟩, false)

/-- Witness for C4 at the concrete chain `[A(continue), B(stop), C]` on a
`gocqrs.Req` request. -/
theorem send_chain_short_circuit_witness :
    (send [("gocqrs.Req", ⟨createUserHandler, "gocqrs.H"⟩)]
        ⟨"gocqrs.H",
          [("gocqrs.H", [⟨"A", mwContinue⟩, ⟨"B", mwStop⟩, ⟨"C", mwContinue⟩])],
          []⟩
        ⟨"gocqrs.UserDto", false⟩ 0 ⟨⟨"gocqrs.Req", false⟩, 1⟩).preRun =
      ["A", "B"] ∧
    "C" ∉ (send [("gocqrs.Req", ⟨createUserHandler, "gocqrs.H"⟩)]
        ⟨"gocqrs.H",
          [("gocqrs.H", [⟨"A", mwContinue⟩, ⟨"B", mwStop⟩, ⟨"C", mwContinue⟩])],
          []⟩
        ⟨"gocqrs.UserDto", false⟩ 0 ⟨⟨"gocqrs.Req", false⟩, 1⟩).preRun ∧
    (send [("gocqrs.Req", ⟨createUserHandler, "gocqrs.H"⟩)]
        ⟨"gocqrs.H",
          [("gocqrs.H", [⟨"A", mwContinue⟩, ⟨"B", mwStop⟩, ⟨"C", mwContinue⟩])],
          []⟩
        ⟨"gocqrs.UserDto", false⟩ 0 ⟨⟨"gocqrs.Req", false⟩, 1⟩).handlerInput =
      some ⟨⟨"gocqrs.Rewritten", false⟩, 9⟩ :=
  send_chain_short_circuit "gocqrs.H" "A" "B" "C" mwContinue mwStop mwContinue
    [] createUserHandler ⟨"gocqrs.UserDto", false⟩ 0 ⟨⟨"gocqrs.Req", false⟩, 1⟩
    rfl rfl (by decide) (by decide)

/-- C7: starting from a builder with no pre-middlewares yet for its current
handler, registering the same-named pre-middleware twice leaves the
handler's pre-middleware list with that single entry, and every dispatch of
that handler executes the middleware exactly once. -/
theorem preMiddleware_registered_noop
    (b : AddMiddlewareBuilder) (n : String) (f : MiddlewareFunc)
    (l : List middlewareStruct)
    (hl : getMapValue b.preMiddlewares b.currentHandlerName = some l)
    (hreg : isMiddlewareRegisteredForHandler l n = true) :
    b.PreMiddleware n f = b := by
  simp [AddMiddlewareBuilder.PreMiddleware, hl, hreg]

theorem preMiddleware_twice_single_entry
    (b : AddMiddlewareBuilder) (n : String) (f : MiddlewareFunc) (ctx : Ctx)
    (request : GoVal)
    (hfresh : getMapValue b.preMiddlewares b.currentHandlerName = none) :
    ((getMapValue ((b.PreMiddleware n f).PreMiddleware n f).preMiddlewares
        b.currentHandlerName).getD []).map (fun m => m.middlewareName) = [n] ∧
    (executePreMiddlewaresTr ((b.PreMiddleware n f).PreMiddleware n f) ctx
        request b.currentHandlerName).2 = [n] := by
  have hb1 : b.PreMiddleware n f =
      { b with preMiddlewares :=
          storeMapValue b.preMiddlewares b.currentHandlerName [⟨n, f⟩] } := by
    simp [AddMiddlewareBuilder.PreMiddleware, hfresh]
  have hlook :
      getMapValue (b.PreMiddleware n f).preMiddlewares b.currentHandlerName =
        some [⟨n, f⟩] := by
    rw [hb1]
    exact getMapValue_store_self _ _ _
  have hlook1 :
      getMapValue (b.PreMiddleware n f).preMiddlewares
          (b.PreMiddleware n f).currentHandlerName = some [⟨n, f⟩] := by
    rw [hb1]
    exact getMapValue_store_self _ _ _
  have hb2 : (b.PreMiddleware n f).PreMiddleware n f = b.PreMiddleware n f :=
    preMiddleware_registered_noop _ n f [⟨n, f⟩] hlook1
      (by simp [isMiddlewareRegisteredForHandler])
  rw [hb2]
  constructor
  · rw [hlook]
    rfl
  · cases hstep : (f ctx request).2.2 <;>
      simp [executePreMiddlewaresTr, hlook, runPreLoop, hstep]

/-- Witness for C7: double registration of the middleware named `gocqrs.M`
on a fresh builder for handler `gocqrs.H`. -/
theorem preMiddleware_twice_single_entry_witness :
    ((getMapValue
        (((AddMiddlewareBuilder.mk "gocqrs.H" [] []).PreMiddleware "gocqrs.M"
            mwContinue).PreMiddleware "gocqrs.M" mwContinue).preMiddlewares
        "gocqrs.H").getD []).map (fun m => m.middlewareName) = ["gocqrs.M"] ∧
    (executePreMiddlewaresTr
        (((AddMiddlewareBuilder.mk "gocqrs.H" [] []).PreMiddleware "gocqrs.M"
            mwContinue).PreMiddleware "gocqrs.M" mwContinue) 0
        ⟨⟨"gocqrs.Req", false⟩, 1⟩ "gocqrs.H").2 = ["gocqrs.M"] :=
  preMiddleware_twice_single_entry ⟨"gocqrs.H", [], []⟩ "gocqrs.M" mwContinue 0
    ⟨⟨"gocqrs.Req", false⟩, 1⟩ rfl

/-- A builder for handler `gocqrs.H` with no pre-middlewares and one
post-middleware already registered under the name `A`. -/
def postOnlyBuilder : AddMiddlewareBuilder :=
  ⟨"gocqrs.H", [], [("gocqrs.H", [⟨"A", mwContinue⟩])]⟩

/-- C8: evaluation at the failing input.  On a builder whose handler has no
pre-middlewares and an existing post-middleware `A`, the older snapshot's
`PostMiddleware` (whose existence lookup reads the pre-middleware map)
replaces the post list with just the new `B` instead of appending, whereas
the current `PostMiddleware` appends while retaining `A`, and the post
chain then runs in registration order `A`, `B`. -/
theorem postMiddlewareOld_replaces_list :
    ((getMapValue (PostMiddlewareOld postOnlyBuilder "B" mwContinue).postMiddlewares
        "gocqrs.H").getD []).map (fun m => m.middlewareName) = ["B"] ∧
    ((getMapValue (postOnlyBuilder.PostMiddleware "B" mwContinue).postMiddlewares
        "gocqrs.H").getD []).map (fun m => m.middlewareName) = ["A", "B"] ∧
    executePostMiddlewaresTr (postOnlyBuilder.PostMiddleware "B" mwContinue) 0
        ⟨⟨"gocqrs.Req", false⟩, 1⟩ "gocqrs.H" = ["A", "B"] := by
  refine ⟨rfl, rfl, rfl⟩

/-- C9: when a handler is found and its raw response narrows to the
expected type, `send` returns exactly the `(response, err)` pair the handler
invocation produced — the handler's error, nil or not, is propagated
unchanged — the post-middleware chain still runs, and replacing the
post-middleware registrations by any others leaves the returned pair
untouched. -/
theorem send_returns_handler_pair
    (handlers : List (String × handlerWrapper)) (b : AddMiddlewareBuilder)
    (expected : GoType) (ctx : Ctx) (inv : GoVal) (value : handlerWrapper)
    (post2 : List (String × List middlewareStruct))
    (hfound : getMapValue handlers inv.type.string = some value)
    (hconv :
      (value.Handler ctx (executePreMiddlewaresTr b ctx inv value.Name).1).1.type =
        expected) :
    (send handlers b expected ctx inv).outcome =
      SendOutcome.returned
        (value.Handler ctx (executePreMiddlewaresTr b ctx inv value.Name).1).1
        (value.Handler ctx (executePreMiddlewaresTr b ctx inv value.Name).1).2 ∧
    (send handlers b expected ctx inv).postRun =
      executePostMiddlewaresTr b ctx
        (executePreMiddlewaresTr b ctx inv value.Name).1 value.Name ∧
    (send handlers b expected ctx inv).outcome =
      (send handlers { b with postMiddlewares := post2 } expected ctx
        inv).outcome := by
  refine ⟨?_, ?_, ?_⟩
  · simp [send, hfound, createReflectiveHandler, reflectiveHandler.Handle, hconv]
  · simp [send, hfound]
  · simp [send, hfound, executePreMiddlewaresTr]

/-- A handler for `gocqrs.Req` that returns a well-typed response together
with a non-nil `boom` error. -/
def boomHandler : HandlerFn :=
  fun _ _ => (⟨⟨"gocqrs.UserDto", false⟩, 2⟩, some "boom")

/-- Witness for C9: a failing handler plus one post-middleware `P`; the
caller receives the handler's response and its `boom` error unchanged, the
post chain runs, and emptying the post chain leaves the outcome equal. -/
theorem send_returns_handler_pair_witness :
    (send [("gocqrs.Req", ⟨boomHandler, "gocqrs.H"⟩)]
        ⟨"gocqrs.H", [], [("gocqrs.H", [⟨"P", mwContinue⟩])]⟩
        ⟨"gocqrs.UserDto", false⟩ 0 ⟨⟨"gocqrs.Req", false⟩, 1⟩).outcome =
      SendOutcome.returned
        (boomHandler 0
          (executePreMiddlewaresTr
            ⟨"gocqrs.H", [], [("gocqrs.H", [⟨"P", mwContinue⟩])]⟩ 0
            ⟨⟨"gocqrs.Req", false⟩, 1⟩ "gocqrs.H").1).1
        (boomHandler 0
          (executePreMiddlewaresTr
            ⟨"gocqrs.H", [], [("gocqrs.H", [⟨"P", mwContinue⟩])]⟩ 0
            ⟨⟨"gocqrs.Req", false⟩, 1⟩ "gocqrs.H").1).2 ∧
    (send [("gocqrs.Req", ⟨boomHandler, "gocqrs.H"⟩)]
        ⟨"gocqrs.H", [], [("gocqrs.H", [⟨"P", mwContinue⟩])]⟩
        ⟨"gocqrs.UserDto", false⟩ 0 ⟨⟨"gocqrs.Req", false⟩, 1⟩).postRun =
      executePostMiddlewaresTr
        ⟨"gocqrs.H", [], [("gocqrs.H", [⟨"P", mwContinue⟩])]⟩ 0
        (executePreMiddlewaresTr
          ⟨"gocqrs.H", [], [("gocqrs.H", [⟨"P", mwContinue⟩])]⟩ 0
          ⟨⟨"gocqrs.Req", false⟩, 1⟩ "gocqrs.H").1 "gocqrs.H" ∧
    (send [("gocqrs.Req", ⟨boomHandler, "gocqrs.H"⟩)]
        ⟨"gocqrs.H", [], [("gocqrs.H", [⟨"P", mwContinue⟩])]⟩
        ⟨"gocqrs.UserDto", false⟩ 0 ⟨⟨"gocqrs.Req", false⟩, 1⟩).outcome =
      (send [("gocqrs.Req", ⟨boomHandler, "gocqrs.H"⟩)]
        ⟨"gocqrs.H", [], []⟩
        ⟨"gocqrs.UserDto", false⟩ 0 ⟨⟨"gocqrs.Req", false⟩, 1⟩).outcome :=
  send_returns_handler_pair [("gocqrs.Req", ⟨boomHandler, "gocqrs.H"⟩)]
    ⟨"gocqrs.H", [], [("gocqrs.H", [⟨"P", mwContinue⟩])]⟩
    ⟨"gocqrs.UserDto", false⟩ 0 ⟨⟨"gocqrs.Req", false⟩, 1⟩
    ⟨boomHandler, "gocqrs.H"⟩ [] rfl rfl

end GoCqrs
